import Mathlib

/-!
Shallow embedding of the subscription lifecycle engine of LukaMagicBOT
(src/crud.py, src/stripe_handlers.py, src/models.py, and the sweep
routine cleanup_expired_past_gracecriptions of src/LukaMagicBOT.py).

Timestamps are modelled as Int seconds (datetime.utcnow() arithmetic);
a timedelta of d days is d * 86400 seconds.  The database session is
modelled as explicit lists of rows; SQLAlchemy `.first()` followed by a
mutation + commit is modelled by updating the first matching list entry.
Python string truthiness (None and "" are falsy) is modelled explicitly.
-/

namespace LukaBot

/-- Models Python str.lower() for the ASCII data handled here. -/
def lowerStr (s : String) : String := String.mk (s.toList.map Char.toLower)

/-- Whitespace test used by the model of str.strip(). -/
def isSpaceChar (c : Char) : Bool := c == ' ' || c == '\t' || c == '\n' || c == '\r'

/-- Models Python str.strip(). -/
def stripStr (s : String) : String :=
  String.mk (((s.toList.dropWhile isSpaceChar).reverse.dropWhile isSpaceChar).reverse)

/-- Models the normalization email.lower().strip() (equivalently .strip().lower(),
since lowering preserves whitespace) applied throughout crud.py. -/
def normEmail (s : String) : String := stripStr (lowerStr s)

/-- crud._digits_only: keep only the decimal digits of a string. -/
def digitsOnly (s : String) : String := String.mk (s.toList.filter Char.isDigit)

/-- Bool prefix test on character lists (helper for the substring test). -/
def listPrefixOf : List Char → List Char → Bool
  | [], _ => true
  | _ :: _, [] => false
  | a :: as, b :: bs => a == b && listPrefixOf as bs

/-- Bool infix test on character lists (helper for the substring test). -/
def listInfixOf (n : List Char) : List Char → Bool
  | [] => listPrefixOf n []
  | h :: t => listPrefixOf n (h :: t) || listInfixOf n t

/-- Models the Python membership test needle in hay on strings. -/
def containsSub (needle hay : String) : Bool := listInfixOf needle.toList hay.toList

/-- Python truthiness of an optional string: None and "" are falsy. -/
def optTruthy : Option String → Bool
  | some s => s != ""
  | none => false

/-- Models the Python expression (x or None) on an optional string:
None and "" collapse to None. -/
def pyOrNone : Option String → Option String
  | some s => if s == "" then none else some s
  | none => none

/-- Subscription row (models.Subscription).  stripe_customer_id and
stripe_session_id are never read or written by the modelled code paths and
are omitted. -/
structure Subscription where
  id : Nat
  email : String
  full_name : Option String := none
  telegram_user_id : Option String := none
  stripe_subscription_id : Option String := none
  plan_type : Option String := none
  status : String
  expires_at : Option Int := none
  created_at : Int := 0
  updated_at : Int := 0
deriving DecidableEq, Repr

/-- Whitelist row (models.Whitelist).  reason / added_by / created_at are
never read by the sweep logic and are omitted. -/
structure WhitelistEntry where
  telegram_user_id : String
  email : Option String := none
deriving DecidableEq, Repr

/-- Models the SQLAlchemy pattern: fetch the first row satisfying p,
mutate it with f, commit.  Returns none when no row matches. -/
def updateFirst (p : Subscription → Bool) (f : Subscription → Subscription) :
    List Subscription → Option (List Subscription)
  | [] => none
  | s :: rest => if p s then some (f s :: rest) else (updateFirst p f rest).map (s :: ·)

/-- Models the DB autoincrement primary key for a newly inserted row. -/
def nextId (db : List Subscription) : Nat := (db.map (·.id)).foldr max 0 + 1

/-- crud.get_cancelled_subscriptions: all rows with status cancelled/canceled,
with no condition whatsoever on expires_at. -/
def get_cancelled_subscriptions (db : List Subscription) : List Subscription :=
  db.filter (fun s => s.status == "cancelled" || s.status == "canceled")

/-- crud.get_subscriptions_past_grace_period: active rows whose expires_at is
strictly before now - grace_period_days days, and whose telegram_user_id is
not NULL (the SQL filter telegram_user_id.isnot(None)).  A NULL expires_at
fails the SQL comparison and is excluded. -/
def get_subscriptions_past_grace_period (db : List Subscription)
    (grace_period_days : Int) (now : Int) : List Subscription :=
  db.filter (fun s =>
    s.status == "active" &&
    (match s.expires_at with
     | some t => decide (t < now - grace_period_days * 86400)
     | none => false) &&
    s.telegram_user_id.isSome)

/-- The candidate list all_subs built by cleanup_expired_past_gracecriptions
(LukaMagicBOT.py line 1690): expired_past_grace + cancelled_subs. -/
def sweepCandidates (db : List Subscription) (grace_period_days : Int) (now : Int) :
    List Subscription :=
  get_subscriptions_past_grace_period db grace_period_days now ++
    get_cancelled_subscriptions db

/-- crud.is_whitelisted: primary check by telegram_user_id when that argument
is truthy, fallback check by normalized email, else False. -/
def is_whitelisted (wl : List WhitelistEntry)
    (email : Option String) (telegram_user_id : Option String) : Bool :=
  if optTruthy telegram_user_id then
    wl.any (fun w => w.telegram_user_id == telegram_user_id.getD "")
  else if optTruthy email then
    wl.any (fun w => w.email == some (normEmail (email.getD "")))
  else false

/-- crud.mark_subscription_processed: set status (and updated_at) of the row
with the given primary key; False when the row does not exist. -/
def mark_subscription_processed (db : List Subscription) (subscription_id : Nat)
    (new_status : String) (now : Int) : Bool × List Subscription :=
  match updateFirst (fun s => s.id == subscription_id)
      (fun s => { s with status := new_status, updated_at := now }) db with
  | some db' => (true, db')
  | none => (false, db)

/-- crud.update_subscription_status: set status (and updated_at) of the first
row matching the given stripe_subscription_id; False when none matches. -/
def update_subscription_status (db : List Subscription)
    (stripe_subscription_id : Option String) (status : String) (now : Int) :
    Bool × List Subscription :=
  match updateFirst (fun s => s.stripe_subscription_id == stripe_subscription_id)
      (fun s => { s with status := status, updated_at := now }) db with
  | some db' => (true, db')
  | none => (false, db)

/-- One entry of checkout.session.custom_fields.  text_value is some v when
fld text is a dict whose value normalizes (via the Python idiom value or "")
to v, none when the text key is absent or not a dict; likewise numeric_value. -/
structure CustomField where
  key : String := ""
  label_custom : String := ""
  text_value : Option String := none
  numeric_value : Option String := none
deriving DecidableEq, Repr

/-- The fields of a checkout.session payload read by the modelled code.
metadata_telegram_id is some v when metadata is a dict holding key
telegram_id with value v. -/
structure CheckoutSession where
  customer_details_email : Option String := none
  customer_details_name : Option String := none
  customer_email : Option String := none
  custom_fields : List CustomField := []
  metadata_telegram_id : Option String := none
  payment_status : Option String := none
  subscription : Option String := none
deriving DecidableEq, Repr

/-- The telegram in key or telegram in label test of the custom-field loops. -/
def isTelegramField (f : CustomField) : Bool :=
  containsSub "telegram" (lowerStr f.key) || containsSub "telegram" (lowerStr f.label_custom)

/-- The custom-field loop of crud.upsert_subscription_from_checkout_session
(lines 108-119): per matching field, digits of the text value win, else digits
of the numeric value; an empty result keeps scanning.  Returns "" when no
field yields digits (telegram_id stays falsy in the Python code). -/
def telegramFromFields : List CustomField → String
  | [] => ""
  | f :: rest =>
    if isTelegramField f then
      let fromText := match f.text_value with
        | some v => digitsOnly v
        | none => ""
      if fromText != "" then fromText
      else
        let fromNumeric := match f.numeric_value with
          | some v => digitsOnly v
          | none => ""
        if fromNumeric != "" then fromNumeric
        else telegramFromFields rest
    else telegramFromFields rest

/-- Telegram id extraction of crud.upsert_subscription_from_checkout_session:
custom fields first, then the metadata.telegram_id fallback. -/
def checkoutTelegram (s : CheckoutSession) : String :=
  let t := telegramFromFields s.custom_fields
  if t != "" then t else digitsOnly (s.metadata_telegram_id.getD "")

/-- The email expression (cd.email or session.customer_email or "")
.strip().lower() of crud.upsert_subscription_from_checkout_session. -/
def checkoutEmail (s : CheckoutSession) : String :=
  normEmail (match s.customer_details_email with
    | some v => if v == "" then s.customer_email.getD "" else v
    | none => s.customer_email.getD "")

/-- The full_name expression (cd.name or None). -/
def checkoutName (s : CheckoutSession) : Option String :=
  pyOrNone s.customer_details_name

/-- The name write of crud.upsert_subscription_from_checkout_session:
only fill full_name when the stored one is falsy. -/
def checkoutStepName (full_name : Option String) (sub : Subscription) : Subscription :=
  if optTruthy full_name && !(optTruthy sub.full_name) then
    { sub with full_name := full_name } else sub

/-- The telegram write: unconditionally overwrite when one was extracted. -/
def checkoutStepTelegram (telegram_id : String) (sub : Subscription) : Subscription :=
  if telegram_id != "" then { sub with telegram_user_id := some telegram_id } else sub

/-- The billing-subscription-id write: only fill when the stored one is falsy. -/
def checkoutStepSubId (sub_id : Option String) (sub : Subscription) : Subscription :=
  if optTruthy sub_id && !(optTruthy sub.stripe_subscription_id) then
    { sub with stripe_subscription_id := sub_id } else sub

/-- The status write: force active whenever the session is paid and the
stored status differs (whatever it is). -/
def checkoutStepStatus (is_paid : Bool) (sub : Subscription) : Subscription :=
  if is_paid && sub.status != "active" then { sub with status := "active" } else sub

/-- The update applied to an existing row by
crud.upsert_subscription_from_checkout_session (lines 147-161): the four
conditional writes above in source order; updated_at is refreshed when any
branch fired (each condition only reads fields no earlier write touches, so
they are evaluated against the incoming row exactly as in the source). -/
def checkoutApplyToExisting (full_name : Option String) (telegram_id : String)
    (is_paid : Bool) (sub_id : Option String) (now : Int)
    (sub : Subscription) : Subscription :=
  let changed := (optTruthy full_name && !(optTruthy sub.full_name))
    || (telegram_id != "")
    || (optTruthy sub_id && !(optTruthy sub.stripe_subscription_id))
    || (is_paid && sub.status != "active")
  let sub' := checkoutStepStatus is_paid (checkoutStepSubId sub_id
    (checkoutStepTelegram telegram_id (checkoutStepName full_name sub)))
  if changed then { sub' with updated_at := now } else sub'

/-- The row created by crud.upsert_subscription_from_checkout_session when
no record matches the session email (lines 132-146): plan_type NULL,
expires_at NULL, active only when the session shows payment captured. -/
def checkoutNewSubscription (session : CheckoutSession) (id : Nat) (now : Int) :
    Subscription :=
  { id := id
    email := checkoutEmail session
    full_name := checkoutName session
    telegram_user_id :=
      if checkoutTelegram session == "" then none else some (checkoutTelegram session)
    stripe_subscription_id := pyOrNone session.subscription
    plan_type := none
    status := if session.payment_status == some "paid" then "active" else "pending"
    expires_at := none
    created_at := now
    updated_at := now }

/-- crud.upsert_subscription_from_checkout_session: create or update the row
keyed by the normalized session email; never touches expires_at or plan_type. -/
def upsert_subscription_from_checkout_session (db : List Subscription)
    (session : CheckoutSession) (now : Int) : Bool × List Subscription :=
  if checkoutEmail session == "" then (false, db)
  else
    match updateFirst (fun s => s.email == checkoutEmail session)
        (checkoutApplyToExisting (checkoutName session) (checkoutTelegram session)
          (session.payment_status == some "paid") session.subscription now) db with
    | some db' => (true, db')
    | none => (true, db ++ [checkoutNewSubscription session (nextId db) now])

/-- The fields of an invoice payload read by the modelled code.
line_price_id is lines.data[0].price.id when present. -/
structure Invoice where
  customer_email : Option String := none
  subscription : Option String := none
  line_price_id : Option String := none
deriving DecidableEq, Repr

/-- crud.map_plan_from_price_id over the PRICE_PLAN_MAP environment mapping
(passed explicitly since it is read from env vars at import time). -/
def map_plan_from_price_id (priceMap : List (String × String)) (price_id : String) :
    Option String :=
  if price_id == "" then none
  else (priceMap.find? (fun kv => kv.1 == stripStr price_id)).map (·.2)

/-- The plan_type expression of crud.upsert_subscription_from_invoice
(line 189): map_plan_from_price_id(price_id) if price_id else None. -/
def invoicePlan (priceMap : List (String × String)) (inv : Invoice) : Option String :=
  match inv.line_price_id with
  | some pid => if pid == "" then none else map_plan_from_price_id priceMap pid
  | none => none

/-- The billing-subscription-id write of the invoice update: only fill when
the stored one is falsy. -/
def invoiceStepSubId (sub_id : Option String) (sub : Subscription) : Subscription :=
  if optTruthy sub_id && !(optTruthy sub.stripe_subscription_id) then
    { sub with stripe_subscription_id := sub_id } else sub

/-- The status write of the invoice update: force active whenever different. -/
def invoiceStepStatus (sub : Subscription) : Subscription :=
  if sub.status != "active" then { sub with status := "active" } else sub

/-- The plan write of the invoice update: set plan_type when a plan was
resolved and the stored one differs. -/
def invoiceStepPlan (plan_type : Option String) (sub : Subscription) : Subscription :=
  if plan_type.isSome && sub.plan_type != plan_type then
    { sub with plan_type := plan_type } else sub

/-- The extension value of the invoice update: for a known plan,
max(current-expiry-or-now, now) + the plan's fixed duration; none otherwise. -/
def invoiceExtension (plan_type : Option String) (now : Int) (sub : Subscription) :
    Option Int :=
  if plan_type == some "monthly" then some (max (sub.expires_at.getD now) now + 30 * 86400)
  else if plan_type == some "quarterly" then some (max (sub.expires_at.getD now) now + 90 * 86400)
  else if plan_type == some "annual" then some (max (sub.expires_at.getD now) now + 365 * 86400)
  else none

/-- The update applied to an existing row by
crud.upsert_subscription_from_invoice (lines 219-245): fill
stripe_subscription_id only if currently falsy, force status to active, set
plan_type when a plan is known and differs, and for a known plan extend
expires_at to max(current-or-now, now) + 30/90/365 days; updated_at is
refreshed when any branch fired. -/
def invoiceApplyToExisting (plan_type : Option String) (sub_id : Option String)
    (now : Int) (sub : Subscription) : Subscription :=
  let c1 := optTruthy sub_id && !(optTruthy sub.stripe_subscription_id)
  let sub1 := invoiceStepSubId sub_id sub
  let c2 := sub1.status != "active"
  let sub2 := invoiceStepStatus sub1
  let c3 := plan_type.isSome && sub2.plan_type != plan_type
  let sub3 := invoiceStepPlan plan_type sub2
  let ext := invoiceExtension plan_type now sub3
  let sub4 := match ext with
    | some t => { sub3 with expires_at := some t }
    | none => sub3
  if c1 || c2 || c3 || ext.isSome then { sub4 with updated_at := now } else sub4

/-- The row created by crud.upsert_subscription_from_invoice when no match
exists (lines 199-218): minimal record, active, expires_at from the plan
duration when the plan is known, else NULL. -/
def invoiceNewSubscription (plan_type : Option String) (email : String)
    (sub_id : Option String) (id : Nat) (now : Int) : Subscription :=
  { id := id
    email := email
    stripe_subscription_id := pyOrNone sub_id
    plan_type := plan_type
    status := "active"
    expires_at :=
      if plan_type == some "monthly" then some (now + 30 * 86400)
      else if plan_type == some "quarterly" then some (now + 90 * 86400)
      else if plan_type == some "annual" then some (now + 365 * 86400)
      else none
    created_at := now
    updated_at := now }

/-- The two-stage row lookup of crud.upsert_subscription_from_invoice
(lines 191-197): by truthy email first, falling back to a truthy
stripe_subscription_id; returns the updated table when a row matched. -/
def invoiceResolve (email : String) (sub_id : Option String)
    (f : Subscription → Subscription) (db : List Subscription) :
    Option (List Subscription) :=
  match (if email != "" then updateFirst (fun s => s.email == email) f db else none) with
  | some db' => some db'
  | none =>
    if optTruthy sub_id then
      updateFirst (fun s => s.stripe_subscription_id == sub_id) f db
    else none

/-- crud.upsert_subscription_from_invoice: resolve the target row by
normalized email, falling back to stripe_subscription_id; update it, or
create the minimal row when no match exists. -/
def upsert_subscription_from_invoice (priceMap : List (String × String))
    (db : List Subscription) (invoice : Invoice) (now : Int) :
    Bool × List Subscription :=
  match invoiceResolve (normEmail (invoice.customer_email.getD "")) invoice.subscription
      (invoiceApplyToExisting (invoicePlan priceMap invoice) invoice.subscription now) db with
  | some db' => (true, db')
  | none =>
    (true, db ++ [invoiceNewSubscription (invoicePlan priceMap invoice)
      (normEmail (invoice.customer_email.getD "")) invoice.subscription (nextId db) now])

/-- crud.update_full_name_if_empty: set full_name on the row with the given
normalized email only when the stored name is falsy. -/
def update_full_name_if_empty (db : List Subscription) (email full_name : String)
    (now : Int) : Bool × List Subscription :=
  if email == "" || full_name == "" then (false, db)
  else
    match db.find? (fun s => s.email == normEmail email) with
    | none => (false, db)
    | some sub =>
      if optTruthy sub.full_name then (false, db)
      else
        match updateFirst (fun s => s.email == normEmail email)
            (fun s => { s with full_name := some full_name, updated_at := now }) db with
        | some db' => (true, db')
        | none => (false, db)

/-- crud.mark_telegram_id: unconditionally overwrite telegram_user_id on the
row with the given normalized email. -/
def mark_telegram_id (db : List Subscription) (email telegram_user_id : String)
    (now : Int) : Bool × List Subscription :=
  if email == "" || telegram_user_id == "" then (false, db)
  else
    match updateFirst (fun s => s.email == normEmail email)
        (fun s => { s with telegram_user_id := some telegram_user_id, updated_at := now }) db with
    | some db' => (true, db')
    | none => (false, db)

/-- stripe_handlers._extract_email_and_name: first truthy of cd.email /
customer_email normalized, and the stripped display name. -/
def extract_email_and_name (s : CheckoutSession) : Option String × Option String :=
  let email0 : Option String :=
    match pyOrNone s.customer_details_email with
    | some v => some v
    | none => pyOrNone s.customer_email
  (email0.map normEmail, s.customer_details_name.map stripStr)

/-- Text pass of stripe_handlers._extract_telegram_id_from_session. -/
def extractTelegramTextPass : List CustomField → Option String
  | [] => none
  | f :: rest =>
    if isTelegramField f then
      match f.text_value with
      | some v =>
        if stripStr v != "" then
          let d := digitsOnly v
          if d != "" then some d else extractTelegramTextPass rest
        else extractTelegramTextPass rest
      | none => extractTelegramTextPass rest
    else extractTelegramTextPass rest

/-- Numeric pass of stripe_handlers._extract_telegram_id_from_session. -/
def extractTelegramNumericPass : List CustomField → Option String
  | [] => none
  | f :: rest =>
    if isTelegramField f then
      match f.numeric_value with
      | some v =>
        if stripStr v != "" then
          let d := digitsOnly v
          if d != "" then some d else extractTelegramNumericPass rest
        else extractTelegramNumericPass rest
      | none => extractTelegramNumericPass rest
    else extractTelegramNumericPass rest

/-- stripe_handlers._extract_telegram_id_from_session: text fields first,
then numeric fields, then the metadata fallback. -/
def extract_telegram_id_from_session (s : CheckoutSession) : Option String :=
  match extractTelegramTextPass s.custom_fields with
  | some d => some d
  | none =>
    match extractTelegramNumericPass s.custom_fields with
    | some d => some d
    | none =>
      match s.metadata_telegram_id with
      | some raw =>
        if stripStr raw != "" then
          let d := digitsOnly raw
          if d != "" then some d else none
        else none
      | none => none

/-- stripe_handlers._map_stripe_status: the fixed vocabulary table, with
pending as the default for anything unrecognized (including a missing
status). -/
def map_stripe_status : Option String → String
  | some "active" => "active"
  | some "trialing" => "active"
  | some "past_due" => "past_due"
  | some "canceled" => "canceled"
  | some "unpaid" => "canceled"
  | some "incomplete" => "pending"
  | some "incomplete_expired" => "canceled"
  | _ => "pending"

/-- The parsed Stripe webhook event shapes dispatched on by
stripe_handlers.process_stripe_webhook_event. -/
inductive StripeWebhookEvent where
  | checkoutSessionCompleted (id : String) (mode : Option String) (session : CheckoutSession)
  | invoicePaid (id : String) (invoice : Invoice)
  | customerSubscriptionUpdated (id : String) (stripe_sub_id : Option String)
      (stripe_status : Option String)
  | customerSubscriptionDeleted (id : String) (stripe_sub_id : Option String)
  | unhandled (id : String) (ty : String)
deriving DecidableEq, Repr

/-- The event.get("id") field. -/
def StripeWebhookEvent.eventId : StripeWebhookEvent → String
  | .checkoutSessionCompleted i _ _ => i
  | .invoicePaid i _ => i
  | .customerSubscriptionUpdated i _ _ => i
  | .customerSubscriptionDeleted i _ => i
  | .unhandled i _ => i

/-- The durable state touched by webhook ingestion: the stripe_events table
(event_id column of models.StripeEvent) and the subscriptions table. -/
structure WebhookState where
  processed_events : List String := []
  subs : List Subscription := []
deriving DecidableEq, Repr

/-- crud.event_already_processed: existence check in the stripe_events table. -/
def event_already_processed (st : WebhookState) (event_id : String) : Bool :=
  st.processed_events.contains event_id

/-- crud.log_event: insert the event id into the stripe_events table.  This
function exists in crud.py (and is imported by stripe_handlers.py) but is
never called by any code path of the repository. -/
def log_event (st : WebhookState) (event_id : String) : WebhookState :=
  { st with processed_events := st.processed_events ++ [event_id] }

/-- The enrichment path taken for a non-subscription checkout session
(stripe_handlers.process_stripe_webhook_event lines 82-95). -/
def enrichNonSubscriptionSession (db : List Subscription) (session : CheckoutSession)
    (now : Int) : List Subscription :=
  let en := extract_email_and_name session
  let tg := extract_telegram_id_from_session session
  match en.1 with
  | none => db
  | some e =>
    if e == "" then db
    else
      let db1 := match en.2 with
        | some n => if n != "" then (update_full_name_if_empty db e n now).2 else db
        | none => db
      match tg with
      | some t => (mark_telegram_id db1 e t now).2
      | none => db1

/-- stripe_handlers.process_stripe_webhook_event: the deduplication check
followed by the per-event-type dispatch.  Mirrors the source exactly: after
a successful dispatch the event id is NOT inserted into the stripe_events
table (crud.log_event is imported but never invoked). -/
def process_stripe_webhook_event (priceMap : List (String × String))
    (st : WebhookState) (event : StripeWebhookEvent) (now : Int) :
    Bool × WebhookState :=
  if event_already_processed st event.eventId then (true, st)
  else
    match event with
    | .checkoutSessionCompleted _ mode session =>
      if mode != some "subscription" then
        (true, { st with subs := enrichNonSubscriptionSession st.subs session now })
      else
        (true, { st with subs := (upsert_subscription_from_checkout_session st.subs session now).2 })
    | .invoicePaid _ invoice =>
      (true, { st with subs := (upsert_subscription_from_invoice priceMap st.subs invoice now).2 })
    | .customerSubscriptionUpdated _ sid status =>
      (true, { st with subs := (update_subscription_status st.subs sid (map_stripe_status status) now).2 })
    | .customerSubscriptionDeleted _ sid =>
      (true, { st with subs := (update_subscription_status st.subs sid "canceled" now).2 })
    | .unhandled _ _ => (false, st)

/-- Outcome of LukaMagicBOT._remove_user_from_vip_groups for one user:
which groups the ban+unban pair succeeded in, which raised. -/
structure RemovalResult where
  success : Bool
  groups_removed : List Int
  error_groups : List Int
deriving DecidableEq, Repr

/-- LukaMagicBOT._remove_user_from_vip_groups: attempt every configured group
independently; success means at least one group was removed from.  The
external Telegram transport is modelled by the groupOk oracle. -/
def remove_user_from_vip_groups (groups : List Int) (groupOk : Int → Bool) :
    RemovalResult :=
  let removed := groups.filter groupOk
  { success := removed.length > 0
    groups_removed := removed
    error_groups := groups.filter (fun g => !(groupOk g)) }

/-- Models Python int(s) succeeding on the digit-string telegram ids stored
by this code base (they are produced by crud._digits_only). -/
def intParseOk (s : String) : Bool := s != "" && s.toList.all Char.isDigit

/-- Result of processing one removal candidate inside the sweep loop of
cleanup_expired_past_gracecriptions: the final status written to the removal
log for this candidate, the subscriptions table afterwards, and the groups on
which a membership-directory removal was attempted. -/
structure SweepStepResult where
  logStatus : String
  db : List Subscription
  removalCalls : List Int
deriving DecidableEq, Repr

/-- The per-candidate body of the sweep loop
(LukaMagicBOT.cleanup_expired_past_gracecriptions lines 1708-1831):
whitelist check first, then the missing-telegram-id check, then int()
parsing, then group removal; mark_subscription_processed(auto_removed) is
invoked unconditionally after the removal attempt, whether or not any group
removal succeeded. -/
def processCandidate (wl : List WhitelistEntry) (groups : List Int)
    (groupOk : Int → Bool) (db : List Subscription) (sub : Subscription)
    (now : Int) : SweepStepResult :=
  let telegram_id_str : Option String := match sub.telegram_user_id with
    | some t => if t != "" then some t else none
    | none => none
  if is_whitelisted wl (some sub.email) telegram_id_str then
    { logStatus := "whitelisted", db := db, removalCalls := [] }
  else if !(optTruthy sub.telegram_user_id) then
    { logStatus := "no_telegram_id", db := db, removalCalls := [] }
  else if !(intParseOk (sub.telegram_user_id.getD "")) then
    { logStatus := "invalid_user_id", db := db, removalCalls := [] }
  else
    let removal := remove_user_from_vip_groups groups groupOk
    { logStatus := if removal.success then "success" else "failed"
      db := (mark_subscription_processed db sub.id "auto_removed" now).2
      removalCalls := groups }

/-! Concrete rows and payloads used to evaluate the definitions above. -/

/-- An active subscription 4 days past expiry at now = 1000000, with no
telegram_user_id on record. -/
def subPastGraceNoTg : Subscription :=
  { id := 1, email := "x@y.com", status := "active",
    expires_at := some (1000000 - 4 * 86400), telegram_user_id := none }

/-- A canceled subscription whose paid period runs 10 more days at
now = 1000000. -/
def subCancelledFuture : Subscription :=
  { id := 2, email := "c@d.com", status := "canceled",
    expires_at := some (1000000 + 10 * 86400), telegram_user_id := some "555" }

/-- An expired active subscription with a valid telegram id, used to exercise
the all-removals-failed path of the sweep. -/
def subRemovalTarget : Subscription :=
  { id := 3, email := "e@f.com", status := "active",
    expires_at := some 0, telegram_user_id := some "777" }

/-- An existing record in a terminal state with a member identifier already
set, used against a paid checkout session. -/
def subTerminalWithTg : Subscription :=
  { id := 4, email := "a@b.com", full_name := some "Old Name",
    telegram_user_id := some "111", stripe_subscription_id := some "sub_x",
    plan_type := some "monthly", status := "auto_removed", expires_at := some 500 }

/-- A paid checkout session for the same email carrying a fresh telegram id
in a custom field. -/
def sessPaidNewTg : CheckoutSession :=
  { customer_details_email := some "a@b.com", payment_status := some "paid",
    custom_fields := [{ key := "telegram_id", text_value := some "222" }] }

/-- A price map binding one price id to the monthly plan. -/
def priceMapMonthly : List (String × String) := [("price_m", "monthly")]

/-- An invoice for a@b.com whose line price resolves to the monthly plan. -/
def invMonthly : Invoice :=
  { customer_email := some "a@b.com", subscription := some "sub_1",
    line_price_id := some "price_m" }

/-- A second copy of the monthly invoice under a distinct event id context,
used by the deduplication analysis. -/
def invMonthlyDedup : Invoice :=
  { customer_email := some "g@h.com", subscription := some "sub_9",
    line_price_id := some "price_m" }

/-- An active record near the grace boundary with a member identifier, used
as the boundary witness input. -/
def subBoundaryJustPast : Subscription :=
  { id := 5, email := "p@q.com", status := "active",
    expires_at := some (1000000 - 3 * 86400 - 1), telegram_user_id := some "10" }

/-- An active record two days past expiry (inside the grace window). -/
def subBoundaryInGrace : Subscription :=
  { id := 6, email := "r@s.com", status := "active",
    expires_at := some (1000000 - 2 * 86400), telegram_user_id := some "11" }

/-- An active record with a future expiry, used as the no-premature-removal
witness input. -/
def subActiveFuture : Subscription :=
  { id := 7, email := "t@u.com", status := "active",
    expires_at := some (1000000 + 86400), telegram_user_id := some "12" }

/-- A whitelisted removal candidate and its whitelist entry. -/
def subWhitelisted : Subscription :=
  { id := 8, email := "w@x.com", status := "active",
    expires_at := some 0, telegram_user_id := some "42" }

/-- The whitelist entry protecting subWhitelisted. -/
def wlEntry42 : WhitelistEntry := { telegram_user_id := "42" }

/-- An existing record with a known expiry, used to check that an invoice
with an unmapped price leaves expires_at alone. -/
def subKnownExpiry : Subscription :=
  { id := 9, email := "k@l.com", status := "past_due", expires_at := some 777 }

/-- An invoice for k@l.com whose line price id maps to no configured plan. -/
def invUnknownPlan : Invoice :=
  { customer_email := some "k@l.com", subscription := some "sub_k",
    line_price_id := some "price_unknown" }

/-! Helper lemmas shared by the claim theorems. -/

/-- Each row of the updateFirst result is the original row or its image
under f (and the result, when some, is pointwise related to the input). -/
theorem updateFirst_forall₂ (p : Subscription → Bool) (f : Subscription → Subscription)
    (db : List Subscription) :
    List.Forall₂ (fun s u => u = s ∨ u = f s) db ((updateFirst p f db).getD db) := by
  induction db with
  | nil => simp [updateFirst]
  | cons s r ih =>
    by_cases h : p s
    · simp only [updateFirst, h, if_true, Option.getD_some]
      exact List.Forall₂.cons (Or.inr rfl)
        (List.forall₂_same.mpr (fun x _ => Or.inl rfl))
    · simp only [updateFirst, h, if_false, Bool.false_eq_true]
      cases hu : updateFirst p f r with
      | some r' =>
        simp only [hu, Option.map_some', Option.getD_some]
        exact List.Forall₂.cons (Or.inl rfl) (by simpa [hu] using ih)
      | none =>
        simp only [hu, Option.map_none', Option.getD_none]
        exact List.Forall₂.cons (Or.inl rfl)
          (List.forall₂_same.mpr (fun x _ => Or.inl rfl))

/-- The second component of the match wrapping used by the crud update
functions equals the getD form. -/
theorem matchUpdate_snd (p : Subscription → Bool) (f : Subscription → Subscription)
    (db : List Subscription) :
    (match updateFirst p f db with
      | some db' => ((true : Bool), db')
      | none => ((false : Bool), db)).2 = (updateFirst p f db).getD db := by
  cases updateFirst p f db <;> rfl

/-- C4 (counterexample): a subscription with status canceled whose paid
period runs 10 more days is nevertheless selected by the sweep and marked
auto_removed at the very next run, so the claim that cancellation alone never
triggers early removal is false on the code. -/
theorem c4_cancelled_future_expiry_removed_early :
    subCancelledFuture.status = "canceled"
    ∧ subCancelledFuture.expires_at = some (1000000 + 10 * 86400)
    ∧ subCancelledFuture ∈ sweepCandidates [subCancelledFuture] 3 1000000
    ∧ (processCandidate [] [77] (fun _ => true) [subCancelledFuture]
        subCancelledFuture 1000000).db =
      [{ subCancelledFuture with status := "auto_removed", updated_at := 1000000 }] := by
  decide

/-- C4 (amended): a subscription with status canceled (or cancelled) is a
removal candidate of every sweep regardless of its expires_at value, even
when the paid period has not ended; cancellation alone triggers removal at
the next sweep. -/
theorem cancelled_subscription_always_swept
    (db : List Subscription) (sub : Subscription) (grace now : Int)
    (hmem : sub ∈ db) (hst : sub.status = "canceled" ∨ sub.status = "cancelled") :
    sub ∈ sweepCandidates db grace now := by
  unfold sweepCandidates get_cancelled_subscriptions
  refine List.mem_append.mpr (Or.inr (List.mem_filter.mpr ⟨hmem, ?_⟩))
  rcases hst with h | h <;> simp [h]

/-- Witness for cancelled_subscription_always_swept at a concrete input. -/
theorem cancelled_subscription_always_swept_witness :
    subCancelledFuture ∈ [subCancelledFuture]
    ∧ subCancelledFuture.status = "canceled"
    ∧ subCancelledFuture ∈ sweepCandidates [subCancelledFuture] 3 1000000 :=
  ⟨by decide, by decide,
    cancelled_subscription_always_swept [subCancelledFuture] subCancelledFuture 3 1000000
      (by decide) (Or.inl (by decide))⟩

/-- C5 (counterexample): an active subscription 4 days past expiry (grace
period 3 days) but with no telegram_user_id on record is not selected by the
sweep, so the claim that every such subscription is a candidate is false on
the code. -/
theorem c5_past_grace_without_member_id_not_selected :
    subPastGraceNoTg.status = "active"
    ∧ subPastGraceNoTg.expires_at = some (1000000 - 4 * 86400)
    ∧ (1000000 : Int) - (1000000 - 4 * 86400) > 3 * 86400
    ∧ subPastGraceNoTg ∉ sweepCandidates [subPastGraceNoTg] 3 1000000 := by
  decide

/-- C5 (amended): an active subscription with a non-null expires_at, a
non-null telegram_user_id, and now − expires_at strictly greater than the
grace period is selected by the sweep; without the strict inequality it is
not selected.  The original claim omits the non-null telegram_user_id
condition that the query imposes. -/
theorem past_grace_selection_characterized
    (db : List Subscription) (sub : Subscription) (grace now t : Int)
    (hmem : sub ∈ db) (hact : sub.status = "active")
    (hexp : sub.expires_at = some t) (htg : sub.telegram_user_id.isSome = true) :
    (t < now - grace * 86400 → sub ∈ sweepCandidates db grace now)
    ∧ (now - grace * 86400 ≤ t → sub ∉ sweepCandidates db grace now) := by
  constructor
  · intro hlt
    unfold sweepCandidates get_subscriptions_past_grace_period
    refine List.mem_append.mpr (Or.inl (List.mem_filter.mpr ⟨hmem, ?_⟩))
    simp [hact, hexp, htg, hlt]
  · intro hge hcand
    unfold sweepCandidates at hcand
    rcases List.mem_append.mp hcand with h | h
    · have hp := (List.mem_filter.mp h).2
      unfold get_subscriptions_past_grace_period at hp
      simp only [hexp, hact] at hp
      simp at hp
      omega
    · have hp := (List.mem_filter.mp h).2
      unfold get_cancelled_subscriptions at hp
      rw [hact] at hp
      exact absurd hp (by decide)

/-- Witness for past_grace_selection_characterized at the grace boundary:
with grace 3 days, expiry now − 3 days − 1 second is selected, expiry
now − 2 days is not. -/
theorem past_grace_selection_characterized_witness :
    (subBoundaryJustPast ∈
        sweepCandidates [subBoundaryJustPast, subBoundaryInGrace] 3 1000000)
    ∧ (subBoundaryInGrace ∉
        sweepCandidates [subBoundaryJustPast, subBoundaryInGrace] 3 1000000) :=
  ⟨(past_grace_selection_characterized
      [subBoundaryJustPast, subBoundaryInGrace] subBoundaryJustPast 3 1000000
      (1000000 - 3 * 86400 - 1) (by decide) (by decide) (by decide) (by decide)).1
    (by decide),
   (past_grace_selection_characterized
      [subBoundaryJustPast, subBoundaryInGrace] subBoundaryInGrace 3 1000000
      (1000000 - 2 * 86400) (by decide) (by decide) (by decide) (by decide)).2
    (by decide)⟩

/-- C7: an active subscription whose expires_at is NULL, or lies at or after
now, is never selected by the removal sweep (for any non-negative grace
period). -/
theorem active_null_or_future_expiry_never_swept
    (db : List Subscription) (grace now : Int) (sub : Subscription)
    (hg : 0 ≤ grace) (hact : sub.status = "active")
    (hexp : sub.expires_at = none ∨ ∃ t, sub.expires_at = some t ∧ now ≤ t) :
    sub ∉ sweepCandidates db grace now := by
  intro hcand
  unfold sweepCandidates at hcand
  rcases List.mem_append.mp hcand with h | h
  · have hp := (List.mem_filter.mp h).2
    unfold get_subscriptions_past_grace_period at hp
    rcases hexp with he | ⟨t, he, hle⟩
    · simp [he, hact] at hp
    · simp only [he, hact] at hp
      simp at hp
      have h86 : (0 : Int) ≤ grace * 86400 := by positivity
      omega
  · have hp := (List.mem_filter.mp h).2
    unfold get_cancelled_subscriptions at hp
    rw [hact] at hp
    exact absurd hp (by decide)

/-- Witness for active_null_or_future_expiry_never_swept: an active
subscription expiring tomorrow is not selected today. -/
theorem active_null_or_future_expiry_never_swept_witness :
    (0 : Int) ≤ 3 ∧ subActiveFuture.status = "active"
    ∧ subActiveFuture ∉ sweepCandidates [subActiveFuture] 3 1000000 :=
  ⟨by decide, by decide,
    active_null_or_future_expiry_never_swept [subActiveFuture] 3 1000000 subActiveFuture
      (by decide) (by decide)
      (Or.inr ⟨1000000 + 86400, by decide, by decide⟩)⟩

/-- C8: a removal candidate whose member identifier matches a whitelist
entry is skipped with log status whitelisted, the subscriptions table is
left untouched, and no membership-directory removal call is made for any
group — the whitelist check runs before every other per-candidate rule. -/
theorem whitelisted_candidate_never_removed
    (wl : List WhitelistEntry) (groups : List Int) (groupOk : Int → Bool)
    (db : List Subscription) (sub : Subscription) (now : Int) (t : String)
    (htg : sub.telegram_user_id = some t) (hne : t ≠ "")
    (hwl : wl.any (fun w => w.telegram_user_id == t) = true) :
    processCandidate wl groups groupOk db sub now =
      { logStatus := "whitelisted", db := db, removalCalls := [] } := by
  unfold processCandidate
  simp only [htg, hne, bne_iff_ne, ne_eq, not_false_iff, if_true]
  have hw : is_whitelisted wl (some sub.email) (some t) = true := by
    simp [is_whitelisted, optTruthy, hne, hwl]
  rw [hw]
  simp

/-- Witness for whitelisted_candidate_never_removed at a concrete input. -/
theorem whitelisted_candidate_never_removed_witness :
    subWhitelisted.telegram_user_id = some "42"
    ∧ [wlEntry42].any (fun w => w.telegram_user_id == "42") = true
    ∧ processCandidate [wlEntry42] [77, 88] (fun _ => true) [subWhitelisted]
        subWhitelisted 1000000 =
      { logStatus := "whitelisted", db := [subWhitelisted], removalCalls := [] } :=
  ⟨by decide, by decide,
    whitelisted_candidate_never_removed [wlEntry42] [77, 88] (fun _ => true)
      [subWhitelisted] subWhitelisted 1000000 "42" (by decide) (by decide) (by decide)⟩

/-- C1 (counterexample): when removal fails in every configured group, the
sweep records log status failed but still rewrites the subscription's status
to auto_removed, so the claim that the status is left unchanged (and the
record retried next sweep) is false on the code. -/
theorem c1_failed_removal_marks_auto_removed :
    (processCandidate [] [77] (fun _ => false) [subRemovalTarget]
        subRemovalTarget 1000000).logStatus = "failed"
    ∧ (processCandidate [] [77] (fun _ => false) [subRemovalTarget]
        subRemovalTarget 1000000).db ≠ [subRemovalTarget]
    ∧ (processCandidate [] [77] (fun _ => false) [subRemovalTarget]
        subRemovalTarget 1000000).db =
      [{ subRemovalTarget with status := "auto_removed", updated_at := 1000000 }] := by
  decide

/-- C1 (amended): when removal from every configured group fails for a
non-whitelisted candidate with a parseable member identifier, the sweep
records log status failed but still marks the subscription auto_removed via
mark_subscription_processed, so the record is not selected again by the next
sweep. -/
theorem failed_removal_still_marks_processed
    (wl : List WhitelistEntry) (groups : List Int) (groupOk : Int → Bool)
    (db : List Subscription) (sub : Subscription) (now : Int) (t : String)
    (htg : sub.telegram_user_id = some t) (hparse : intParseOk t = true)
    (hwl : is_whitelisted wl (some sub.email) (some t) = false)
    (hfail : groups.filter groupOk = []) :
    (processCandidate wl groups groupOk db sub now).logStatus = "failed"
    ∧ (processCandidate wl groups groupOk db sub now).db =
        (mark_subscription_processed db sub.id "auto_removed" now).2
    ∧ List.Forall₂
        (fun s u => u = s ∨ u = { s with status := "auto_removed", updated_at := now })
        db (processCandidate wl groups groupOk db sub now).db := by
  have hne : t ≠ "" := by
    intro h
    rw [h] at hparse
    simp [intParseOk] at hparse
  have hstep : processCandidate wl groups groupOk db sub now =
      { logStatus := "failed"
        db := (mark_subscription_processed db sub.id "auto_removed" now).2
        removalCalls := groups } := by
    unfold processCandidate
    simp only [htg, hne, bne_iff_ne, ne_eq, not_false_iff, if_true]
    rw [hwl]
    simp [optTruthy, hne, hparse, remove_user_from_vip_groups, hfail]
  refine ⟨by rw [hstep], by rw [hstep], ?_⟩
  rw [hstep]
  show List.Forall₂ _ db (mark_subscription_processed db sub.id "auto_removed" now).2
  unfold mark_subscription_processed
  rw [matchUpdate_snd]
  exact updateFirst_forall₂ _ _ db

/-- Witness for failed_removal_still_marks_processed at a concrete input. -/
theorem failed_removal_still_marks_processed_witness :
    subRemovalTarget.telegram_user_id = some "777"
    ∧ intParseOk "777" = true
    ∧ ([77].filter (fun _ => false)) = []
    ∧ (processCandidate [] [77] (fun _ => false) [subRemovalTarget]
        subRemovalTarget 1000000).logStatus = "failed" :=
  ⟨by decide, by decide, by decide,
    (failed_removal_still_marks_processed [] [77] (fun _ => false) [subRemovalTarget]
      subRemovalTarget 1000000 "777" (by decide) (by decide) (by decide) (by decide)).1⟩

/-- When updateFirst succeeds, some row of the input was rewritten by f and
its image lives in the output. -/
theorem updateFirst_mem_image (p : Subscription → Bool) (f : Subscription → Subscription)
    (db db' : List Subscription) (h : updateFirst p f db = some db') :
    ∃ s ∈ db, f s ∈ db' := by
  induction db generalizing db' with
  | nil => simp [updateFirst] at h
  | cons s r ih =>
    by_cases hp : p s
    · simp only [updateFirst, hp, if_true, Option.some.injEq] at h
      exact ⟨s, List.mem_cons_self s r, h ▸ List.mem_cons_self (f s) r⟩
    · simp only [updateFirst, hp, if_false, Bool.false_eq_true] at h
      cases hu : updateFirst p f r with
      | none => rw [hu] at h; simp at h
      | some r' =>
        rw [hu] at h
        simp only [Option.map_some', Option.some.injEq] at h
        rcases ih r' hu with ⟨x, hx, hfx⟩
        exact ⟨x, List.mem_cons_of_mem _ hx, h ▸ List.mem_cons_of_mem _ hfx⟩

/-- A conditional updated_at refresh does not move expires_at. -/
theorem touch_expires (b : Bool) (now : Int) (u : Subscription) :
    (if b then { u with updated_at := now } else u).expires_at = u.expires_at := by
  cases b <;> rfl

/-- A conditional updated_at refresh does not move status. -/
theorem touch_status (b : Bool) (now : Int) (u : Subscription) :
    (if b then { u with updated_at := now } else u).status = u.status := by
  cases b <;> rfl

/-- The sub-id write moves neither expires_at, status, full_name,
telegram_user_id nor plan_type. -/
theorem invoiceStepSubId_frame (sub_id : Option String) (u : Subscription) :
    (invoiceStepSubId sub_id u).expires_at = u.expires_at
    ∧ (invoiceStepSubId sub_id u).status = u.status
    ∧ (invoiceStepSubId sub_id u).plan_type = u.plan_type := by
  unfold invoiceStepSubId
  split <;> exact ⟨rfl, rfl, rfl⟩

/-- The status write always results in an active row and moves nothing else
relevant. -/
theorem invoiceStepStatus_frame (u : Subscription) :
    (invoiceStepStatus u).expires_at = u.expires_at
    ∧ (invoiceStepStatus u).status = "active"
    ∧ (invoiceStepStatus u).plan_type = u.plan_type := by
  unfold invoiceStepStatus
  split
  · exact ⟨rfl, rfl, rfl⟩
  · rename_i h
    refine ⟨rfl, ?_, rfl⟩
    simpa [bne] using h

/-- The plan write does not move expires_at or status. -/
theorem invoiceStepPlan_frame (plan_type : Option String) (u : Subscription) :
    (invoiceStepPlan plan_type u).expires_at = u.expires_at
    ∧ (invoiceStepPlan plan_type u).status = u.status := by
  unfold invoiceStepPlan
  split <;> exact ⟨rfl, rfl⟩

/-- With no resolved plan there is no expiry extension. -/
theorem invoiceExtension_none (now : Int) (u : Subscription) :
    invoiceExtension none now u = none := rfl

/-- The invoice update with an unresolved plan never moves expires_at and
always leaves the row active. -/
theorem invoiceApplyToExisting_none_plan (sub_id : Option String) (now : Int)
    (s : Subscription) :
    (invoiceApplyToExisting none sub_id now s).expires_at = s.expires_at
    ∧ (invoiceApplyToExisting none sub_id now s).status = "active" := by
  unfold invoiceApplyToExisting
  simp only [invoiceExtension_none, Option.isSome_none, Bool.or_false]
  constructor
  · rw [touch_expires]
    rw [(invoiceStepPlan_frame _ _).1, (invoiceStepStatus_frame _).1,
      (invoiceStepSubId_frame _ _).1]
  · rw [touch_status]
    rw [(invoiceStepPlan_frame _ _).2, (invoiceStepStatus_frame _).2.1]

/-- The second component of upsert_subscription_from_invoice as a match on
the row resolution. -/
theorem upsert_invoice_snd (pm : List (String × String)) (db : List Subscription)
    (inv : Invoice) (now : Int) :
    (upsert_subscription_from_invoice pm db inv now).2 =
      match invoiceResolve (normEmail (inv.customer_email.getD "")) inv.subscription
          (invoiceApplyToExisting (invoicePlan pm inv) inv.subscription now) db with
      | some db' => db'
      | none => db ++ [invoiceNewSubscription (invoicePlan pm inv)
          (normEmail (inv.customer_email.getD "")) inv.subscription (nextId db) now] := by
  unfold upsert_subscription_from_invoice
  cases h : invoiceResolve (normEmail (inv.customer_email.getD "")) inv.subscription
      (invoiceApplyToExisting (invoicePlan pm inv) inv.subscription now) db with
  | some db' => rfl
  | none => rfl

/-- A successful invoice row resolution is a successful updateFirst under
one of the two lookup keys. -/
theorem invoiceResolve_some (email : String) (sub_id : Option String)
    (f : Subscription → Subscription) (db db' : List Subscription)
    (h : invoiceResolve email sub_id f db = some db') :
    ∃ p, updateFirst p f db = some db' := by
  unfold invoiceResolve at h
  split at h
  · rename_i d heq
    cases h
    split at heq
    · exact ⟨_, heq⟩
    · cases heq
  · rename_i heq
    split at h
    · exact ⟨_, h⟩
    · cases h

/-- C9: processing a subscription-updated or subscription-deleted event
routes through update_subscription_status with the vocabulary-mapped status
(canceled for deletion), and update_subscription_status rewrites only the
status and updated_at fields of the matched row — every other field of every
row, in particular expires_at, is unchanged. -/
theorem subscription_status_event_frame
    (db : List Subscription) (sid : Option String) (st : String) (now : Int) :
    List.Forall₂ (fun s u => u = s ∨ u = { s with status := st, updated_at := now })
      db (update_subscription_status db sid st now).2
    ∧ (∀ (pm : List (String × String)) (subs : List Subscription) (eid : String)
        (sid' stat : Option String) (now' : Int),
        process_stripe_webhook_event pm { processed_events := [], subs := subs }
            (.customerSubscriptionUpdated eid sid' stat) now' =
          (true, { processed_events := [],
                   subs := (update_subscription_status subs sid'
                     (map_stripe_status stat) now').2 }))
    ∧ (∀ (pm : List (String × String)) (subs : List Subscription) (eid : String)
        (sid' : Option String) (now' : Int),
        process_stripe_webhook_event pm { processed_events := [], subs := subs }
            (.customerSubscriptionDeleted eid sid') now' =
          (true, { processed_events := [],
                   subs := (update_subscription_status subs sid' "canceled" now').2 }))
    ∧ map_stripe_status (some "active") = "active"
    ∧ map_stripe_status (some "trialing") = "active"
    ∧ map_stripe_status (some "past_due") = "past_due"
    ∧ map_stripe_status (some "canceled") = "canceled"
    ∧ map_stripe_status (some "unpaid") = "canceled"
    ∧ map_stripe_status (some "incomplete") = "pending"
    ∧ map_stripe_status (some "incomplete_expired") = "canceled" := by
  refine ⟨?_, ?_, ?_, rfl, rfl, rfl, rfl, rfl, rfl, rfl⟩
  · unfold update_subscription_status
    rw [matchUpdate_snd]
    exact updateFirst_forall₂ _ _ db
  · intro pm subs eid sid' stat now'
    rfl
  · intro pm subs eid sid' now'
    rfl

/-- C10: for an invoice whose line price resolves to no configured plan, the
reducer never modifies expires_at — every pre-existing row keeps its exact
expires_at (and is either untouched or forced active), any newly created row
has expires_at NULL and status active, and the touched-or-created row is
active despite the successful payment. -/
theorem invoice_unknown_plan_preserves_expiry
    (pm : List (String × String)) (db : List Subscription) (inv : Invoice) (now : Int)
    (hplan : invoicePlan pm inv = none) :
    List.Forall₂ (fun s u => u.expires_at = s.expires_at ∧ (u = s ∨ u.status = "active"))
      db (((upsert_subscription_from_invoice pm db inv now).2).take db.length)
    ∧ (∀ u ∈ ((upsert_subscription_from_invoice pm db inv now).2).drop db.length,
        u.expires_at = none ∧ u.status = "active")
    ∧ ∃ u ∈ (upsert_subscription_from_invoice pm db inv now).2, u.status = "active" := by
  have hsnd := upsert_invoice_snd pm db inv now
  rw [hplan] at hsnd
  cases hR : invoiceResolve (normEmail (inv.customer_email.getD "")) inv.subscription
      (invoiceApplyToExisting none inv.subscription now) db with
  | some db' =>
    rw [hR] at hsnd
    obtain ⟨p, hU⟩ := invoiceResolve_some _ _ _ _ _ hR
    have h₂ := updateFirst_forall₂ p (invoiceApplyToExisting none inv.subscription now) db
    rw [hU, Option.getD_some] at h₂
    have hlen := h₂.length_eq
    rw [hsnd]
    refine ⟨?_, ?_, ?_⟩
    · rw [hlen, List.take_length]
      refine h₂.imp ?_
      rintro s u (rfl | rfl)
      · exact ⟨rfl, Or.inl rfl⟩
      · exact ⟨(invoiceApplyToExisting_none_plan _ _ _).1,
          Or.inr (invoiceApplyToExisting_none_plan _ _ _).2⟩
    · rw [hlen, List.drop_length]
      intro u hu
      cases hu
    · obtain ⟨s, _, hfs⟩ := updateFirst_mem_image p _ db db' hU
      exact ⟨_, hfs, (invoiceApplyToExisting_none_plan _ _ _).2⟩
  | none =>
    rw [hR] at hsnd
    rw [hsnd]
    refine ⟨?_, ?_, ?_⟩
    · rw [List.take_left]
      exact List.forall₂_same.mpr fun s _ => ⟨rfl, Or.inl rfl⟩
    · rw [List.drop_left]
      intro u hu
      rw [List.mem_singleton] at hu
      subst hu
      exact ⟨rfl, rfl⟩
    · exact ⟨_, List.mem_append_right _ (List.mem_singleton_self _), rfl⟩

/-- Witness for invoice_unknown_plan_preserves_expiry: an invoice with an
unmapped price against a past_due record with a known expiry. -/
theorem invoice_unknown_plan_preserves_expiry_witness :
    invoicePlan [] invUnknownPlan = none
    ∧ List.Forall₂
        (fun s u => u.expires_at = s.expires_at ∧ (u = s ∨ u.status = "active"))
        [subKnownExpiry]
        (((upsert_subscription_from_invoice [] [subKnownExpiry] invUnknownPlan 2000).2).take 1) :=
  ⟨by decide,
    (invoice_unknown_plan_preserves_expiry [] [subKnownExpiry] invUnknownPlan 2000
      (by decide)).1⟩

/-- Expiry movement of the invoice update under the monthly plan: always
extended to max(current-or-now, now) + 30 days. -/
theorem invoiceApplyToExisting_monthly_expires (sub_id : Option String) (now : Int)
    (s : Subscription) :
    (invoiceApplyToExisting (some "monthly") sub_id now s).expires_at
      = some (max (s.expires_at.getD now) now + 30 * 86400) := by
  simp only [invoiceApplyToExisting]
  rw [touch_expires]
  rw [show invoiceExtension (some "monthly") now
      (invoiceStepPlan (some "monthly") (invoiceStepStatus (invoiceStepSubId sub_id s)))
    = some (max ((invoiceStepPlan (some "monthly")
        (invoiceStepStatus (invoiceStepSubId sub_id s))).expires_at.getD now) now
        + 30 * 86400) from by simp [invoiceExtension]]
  simp only [(invoiceStepPlan_frame _ _).1, (invoiceStepStatus_frame _).1,
    (invoiceStepSubId_frame _ _).1]

/-- Resolution of an invoice against an empty table always falls through to
row creation. -/
theorem invoiceResolve_nil (email : String) (sub_id : Option String)
    (f : Subscription → Subscription) :
    invoiceResolve email sub_id f [] = none := by
  simp [invoiceResolve, updateFirst]

/-- Resolution against a single row whose email matches the truthy lookup
email updates that row. -/
theorem invoiceResolve_singleton_email (email : String) (sub_id : Option String)
    (f : Subscription → Subscription) (s : Subscription)
    (hne : email ≠ "") (hmatch : s.email = email) :
    invoiceResolve email sub_id f [s] = some [f s] := by
  simp [invoiceResolve, updateFirst, hne, hmatch]

/-- C2 (counterexample): applying the same invoice-paid payload (price
mapped to the monthly plan) twice to an empty store does not reproduce the
single-application record: the second application extends expires_at by a
further 30 days, so the reducer is not idempotent on its own. -/
theorem c2_invoice_event_reapplication_changes_record :
    ((upsert_subscription_from_invoice priceMapMonthly [] invMonthly 1000000).2).map
        (·.expires_at) = [some (1000000 + 30 * 86400)]
    ∧ ((upsert_subscription_from_invoice priceMapMonthly
          ((upsert_subscription_from_invoice priceMapMonthly [] invMonthly 1000000).2)
          invMonthly 1000000).2).map (·.expires_at) = [some (1000000 + 60 * 86400)]
    ∧ (upsert_subscription_from_invoice priceMapMonthly
          ((upsert_subscription_from_invoice priceMapMonthly [] invMonthly 1000000).2)
          invMonthly 1000000).2
        ≠ (upsert_subscription_from_invoice priceMapMonthly [] invMonthly 1000000).2 := by
  decide

/-- C2 (amended): for an invoice event carrying a recognized (monthly) plan
and a truthy email, one application to an empty store sets
expires_at = now + 30 days and a second application of the very same event
extends it again to now + 60 days; the reducer alone is therefore not
idempotent and relies on the (check-then-act) deduplication gate. -/
theorem invoice_reapplied_extends_again
    (pm : List (String × String)) (inv : Invoice) (now : Int)
    (hplan : invoicePlan pm inv = some "monthly")
    (hne : normEmail (inv.customer_email.getD "") ≠ "") :
    ((upsert_subscription_from_invoice pm [] inv now).2).map (·.expires_at)
      = [some (now + 30 * 86400)]
    ∧ ((upsert_subscription_from_invoice pm
        ((upsert_subscription_from_invoice pm [] inv now).2) inv now).2).map
        (·.expires_at) = [some (now + 60 * 86400)] := by
  have honce : (upsert_subscription_from_invoice pm [] inv now).2
      = [invoiceNewSubscription (some "monthly") (normEmail (inv.customer_email.getD ""))
          inv.subscription (nextId []) now] := by
    rw [upsert_invoice_snd pm [] inv now, hplan, invoiceResolve_nil]
    rfl
  have hexp1 : (invoiceNewSubscription (some "monthly")
      (normEmail (inv.customer_email.getD "")) inv.subscription (nextId []) now).expires_at
      = some (now + 30 * 86400) := by
    simp [invoiceNewSubscription]
  constructor
  · rw [honce]
    simp only [List.map_cons, List.map_nil, hexp1]
  · rw [honce]
    rw [upsert_invoice_snd, hplan]
    rw [invoiceResolve_singleton_email _ _ _ _ hne (by simp [invoiceNewSubscription])]
    simp only [List.map_cons, List.map_nil]
    rw [invoiceApplyToExisting_monthly_expires, hexp1, Option.getD_some,
      max_eq_left (by linarith : now ≤ now + 30 * 86400)]
    norm_num
    ring

/-- Witness for invoice_reapplied_extends_again at the concrete monthly
price map and invoice. -/
theorem invoice_reapplied_extends_again_witness :
    invoicePlan priceMapMonthly invMonthly = some "monthly"
    ∧ normEmail (invMonthly.customer_email.getD "") ≠ ""
    ∧ ((upsert_subscription_from_invoice priceMapMonthly [] invMonthly 5000).2).map
        (·.expires_at) = [some (5000 + 30 * 86400)] :=
  ⟨by decide, by decide,
    (invoice_reapplied_extends_again priceMapMonthly invMonthly 5000
      (by decide) (by decide)).1⟩

/-- C3: the ingestion path never records any event identifier in the
processed-event table (crud.log_event is dead code), so a redelivered event
passes the already_processed check and is re-applied to the store: delivering
the same invoice-paid event twice changes the subscriptions table the second
time instead of being dropped. -/
theorem ingestion_never_records_event_ids :
    (∀ (pm : List (String × String)) (st : WebhookState) (ev : StripeWebhookEvent)
        (now : Int),
        ((process_stripe_webhook_event pm st ev now).2).processed_events
          = st.processed_events)
    ∧ ((process_stripe_webhook_event priceMapMonthly { processed_events := [], subs := [] }
          (.invoicePaid "evt_1" invMonthlyDedup) 1000000).2).processed_events = []
    ∧ event_already_processed
        ((process_stripe_webhook_event priceMapMonthly { processed_events := [], subs := [] }
          (.invoicePaid "evt_1" invMonthlyDedup) 1000000).2) "evt_1" = false
    ∧ ((process_stripe_webhook_event priceMapMonthly
          ((process_stripe_webhook_event priceMapMonthly
            { processed_events := [], subs := [] }
            (.invoicePaid "evt_1" invMonthlyDedup) 1000000).2)
          (.invoicePaid "evt_1" invMonthlyDedup) 1000000).2).subs
        ≠ ((process_stripe_webhook_event priceMapMonthly
            { processed_events := [], subs := [] }
            (.invoicePaid "evt_1" invMonthlyDedup) 1000000).2).subs := by
  refine ⟨?_, by decide, by decide, by decide⟩
  intro pm st ev now
  cases ev <;> simp only [process_stripe_webhook_event] <;> (repeat' split) <;> rfl

/-- What the checkout-session update actually guarantees for a pre-existing
row s turned into u: identity, expiry, plan and creation time are untouched;
a truthy stored name is never overwritten; a truthy stored billing
subscription id is never overwritten; an active row stays active; any status
change goes to active and only on a paid session; and the member identifier
is either untouched or overwritten with the session's extracted identifier
(even when one was already stored). -/
def checkoutFieldPolicy (session : CheckoutSession) (s u : Subscription) : Prop :=
  u.id = s.id ∧ u.email = s.email ∧ u.expires_at = s.expires_at
  ∧ u.plan_type = s.plan_type ∧ u.created_at = s.created_at
  ∧ (optTruthy s.full_name = true → u.full_name = s.full_name)
  ∧ (optTruthy s.stripe_subscription_id = true →
      u.stripe_subscription_id = s.stripe_subscription_id)
  ∧ (s.status = "active" → u.status = "active")
  ∧ (u.status = s.status ∨ (u.status = "active" ∧ session.payment_status = some "paid"))
  ∧ (u.telegram_user_id = s.telegram_user_id
      ∨ (checkoutTelegram session ≠ ""
          ∧ u.telegram_user_id = some (checkoutTelegram session)))

/-- The policy relation is reflexive. -/
theorem checkoutFieldPolicy_refl (session : CheckoutSession) (s : Subscription) :
    checkoutFieldPolicy session s s :=
  ⟨rfl, rfl, rfl, rfl, rfl, fun _ => rfl, fun _ => rfl, fun h => h,
    Or.inl rfl, Or.inl rfl⟩

/-- The checkout update never moves id, email, expires_at, plan_type or
created_at. -/
theorem checkoutApply_frame (fn : Option String) (tid : String) (p : Bool)
    (si : Option String) (now : Int) (s : Subscription) :
    (checkoutApplyToExisting fn tid p si now s).id = s.id
    ∧ (checkoutApplyToExisting fn tid p si now s).email = s.email
    ∧ (checkoutApplyToExisting fn tid p si now s).expires_at = s.expires_at
    ∧ (checkoutApplyToExisting fn tid p si now s).plan_type = s.plan_type
    ∧ (checkoutApplyToExisting fn tid p si now s).created_at = s.created_at := by
  simp only [checkoutApplyToExisting, checkoutStepName, checkoutStepTelegram,
    checkoutStepSubId, checkoutStepStatus]
  repeat' split
  all_goals exact ⟨rfl, rfl, rfl, rfl, rfl⟩

/-- A truthy stored name survives the checkout update. -/
theorem checkoutApply_full_name (fn : Option String) (tid : String) (p : Bool)
    (si : Option String) (now : Int) (s : Subscription)
    (h : optTruthy s.full_name = true) :
    (checkoutApplyToExisting fn tid p si now s).full_name = s.full_name := by
  simp only [checkoutApplyToExisting, checkoutStepName, checkoutStepTelegram,
    checkoutStepSubId, checkoutStepStatus]
  repeat' split
  all_goals simp_all

/-- A truthy stored billing subscription id survives the checkout update. -/
theorem checkoutApply_ssid (fn : Option String) (tid : String) (p : Bool)
    (si : Option String) (now : Int) (s : Subscription)
    (h : optTruthy s.stripe_subscription_id = true) :
    (checkoutApplyToExisting fn tid p si now s).stripe_subscription_id
      = s.stripe_subscription_id := by
  simp only [checkoutApplyToExisting, checkoutStepName, checkoutStepTelegram,
    checkoutStepSubId, checkoutStepStatus]
  repeat' split
  all_goals simp_all

/-- An active row stays active through the checkout update. -/
theorem checkoutApply_status_active (fn : Option String) (tid : String) (p : Bool)
    (si : Option String) (now : Int) (s : Subscription) (h : s.status = "active") :
    (checkoutApplyToExisting fn tid p si now s).status = "active" := by
  simp only [checkoutApplyToExisting, checkoutStepName, checkoutStepTelegram,
    checkoutStepSubId, checkoutStepStatus]
  repeat' split
  all_goals simp_all

/-- Any status change made by the checkout update goes to active and only on
a paid session. -/
theorem checkoutApply_status_or (fn : Option String) (tid : String) (p : Bool)
    (si : Option String) (now : Int) (s : Subscription) :
    (checkoutApplyToExisting fn tid p si now s).status = s.status
    ∨ ((checkoutApplyToExisting fn tid p si now s).status = "active" ∧ p = true) := by
  simp only [checkoutApplyToExisting, checkoutStepName, checkoutStepTelegram,
    checkoutStepSubId, checkoutStepStatus]
  repeat' split
  all_goals simp_all

/-- The member identifier is either untouched or overwritten with the
extracted one. -/
theorem checkoutApply_tg (fn : Option String) (tid : String) (p : Bool)
    (si : Option String) (now : Int) (s : Subscription) :
    (checkoutApplyToExisting fn tid p si now s).telegram_user_id = s.telegram_user_id
    ∨ (tid ≠ ""
        ∧ (checkoutApplyToExisting fn tid p si now s).telegram_user_id = some tid) := by
  simp only [checkoutApplyToExisting, checkoutStepName, checkoutStepTelegram,
    checkoutStepSubId, checkoutStepStatus]
  repeat' split
  all_goals simp_all [bne_iff_ne]

/-- The checkout update obeys the field policy on every row. -/
theorem checkoutApply_policy (session : CheckoutSession) (now : Int) (s : Subscription) :
    checkoutFieldPolicy session s
      (checkoutApplyToExisting (checkoutName session) (checkoutTelegram session)
        (session.payment_status == some "paid") session.subscription now s) := by
  obtain ⟨h1, h2, h3, h4, h5⟩ := checkoutApply_frame (checkoutName session)
    (checkoutTelegram session) (session.payment_status == some "paid")
    session.subscription now s
  refine ⟨h1, h2, h3, h4, h5,
    checkoutApply_full_name _ _ _ _ _ _,
    checkoutApply_ssid _ _ _ _ _ _,
    checkoutApply_status_active _ _ _ _ _ _, ?_, checkoutApply_tg _ _ _ _ _ _⟩
  rcases checkoutApply_status_or (checkoutName session) (checkoutTelegram session)
      (session.payment_status == some "paid") session.subscription now s with h | ⟨ha, hp⟩
  · exact Or.inl h
  · exact Or.inr ⟨ha, by simpa using hp⟩

/-- C6 (counterexample): against an existing record in the terminal state
auto_removed with member identifier 111, a paid checkout session carrying
telegram id 222 overwrites the stored member identifier and upgrades the
terminal status to active, so the claim that the reducer never changes a
terminal record's status and never overwrites a set member identifier is
false on the code. -/
theorem c6_checkout_overwrites_member_id_and_terminal_status :
    subTerminalWithTg.status = "auto_removed"
    ∧ subTerminalWithTg.telegram_user_id = some "111"
    ∧ ((upsert_subscription_from_checkout_session [subTerminalWithTg]
        sessPaidNewTg 2000).2).map (·.status) = ["active"]
    ∧ ((upsert_subscription_from_checkout_session [subTerminalWithTg]
        sessPaidNewTg 2000).2).map (·.telegram_user_id) = [some "222"] := by
  decide

/-- C6 (amended): for an existing record, the checkout reducer fills the
name only when the stored one is empty, fills the billing-subscription id
only when empty, never downgrades an active record, changes status only to
active and only on a paid session (upgrading pending but also past_due,
canceled and the terminal states), overwrites the member identifier whenever
the session provides one (even when one was already stored), and never
touches expires_at or plan_type; no existing row is dropped or reordered. -/
theorem checkout_update_only_policy_writes (db : List Subscription)
    (session : CheckoutSession) (now : Int) :
    List.Forall₂ (checkoutFieldPolicy session) db
      (((upsert_subscription_from_checkout_session db session now).2).take db.length) := by
  unfold upsert_subscription_from_checkout_session
  split
  · show List.Forall₂ _ db (db.take db.length)
    rw [List.take_length]
    exact List.forall₂_same.mpr fun s _ => checkoutFieldPolicy_refl session s
  · cases h : updateFirst (fun s => s.email == checkoutEmail session)
        (checkoutApplyToExisting (checkoutName session) (checkoutTelegram session)
          (session.payment_status == some "paid") session.subscription now) db with
    | some db' =>
      show List.Forall₂ _ db (db'.take db.length)
      have h₂ := updateFirst_forall₂ (fun s => s.email == checkoutEmail session)
        (checkoutApplyToExisting (checkoutName session) (checkoutTelegram session)
          (session.payment_status == some "paid") session.subscription now) db
      rw [h, Option.getD_some] at h₂
      rw [h₂.length_eq, List.take_length]
      refine h₂.imp ?_
      intro s u hsu
      rcases hsu with h' | h'
      · rw [h']
        exact checkoutFieldPolicy_refl session s
      · rw [h']
        exact checkoutApply_policy session now s
    | none =>
      show List.Forall₂ _ db
        ((db ++ [checkoutNewSubscription session (nextId db) now]).take db.length)
      rw [List.take_left]
      exact List.forall₂_same.mpr fun s _ => checkoutFieldPolicy_refl session s

end LukaBot
